import Mathlib

/-!
Verification development for the Donizo bathroom pricing engine.

Shallow embedding of the Python sources:
  pricing_engine.py, pricing_logic/vat_rules.py, pricing_logic/material_db.py,
  pricing_logic/labor_calc.py, pricing_logic/confidence_scorer.py.

Modelling conventions:
* Python floats are modelled as elements of a linear ordered field with a
  floor (rationals or reals); the engine layer is over the reals because the
  tiles and painting formulas use a real square root (Python x ** 0.5).
* Python round(x, 2) and round(x, 1) are modelled as rounding half up at the
  second and first decimal (Mathlib round); exact .5 ties in binary floats
  are immaterial to every property proved here.
* Python dictionaries carrying heterogeneous task-price lines are modelled as
  association lists over a string/number value type, so that dictionary key
  mismatches present in the source are preserved by the embedding.
* Python str values driving control flow are modelled as Lean String; the
  transcript is modelled as List Char so that lowercasing, stripping and
  substring search mirror the source operations.
-/

/-- Value stored in a modelled Python dictionary: a string or a number. -/
inductive DictVal (α : Type) where
  | str (s : String)
  | num (x : α)
deriving DecidableEq

/-- A Python dict with string keys, as an association list. -/
abbrev PyDict (α : Type) := List (String × DictVal α)

/-- Python d.get(key, default) when the expected value is a number; the
default is also returned on a type mismatch, which never occurs in the
dictionaries built by this program. -/
def getNum {α : Type} (d : PyDict α) (key : String) (dflt : α) : α :=
  match d.lookup key with
  | some (DictVal.num x) => x
  | _ => dflt

/-- Python d.get(key, default) when the expected value is a string. -/
def getStr {α : Type} (d : PyDict α) (key : String) (dflt : String) : String :=
  match d.lookup key with
  | some (DictVal.str s) => s
  | _ => dflt

section Rounding

variable {α : Type} [LinearOrderedField α] [FloorRing α]

/-- Python round(x, 2): round to two decimal places. -/
def round2 (x : α) : α := ((round (x * 100) : ℤ) : α) / 100

/-- Python round(x, 1): round to one decimal place. -/
def round1 (x : α) : α := ((round (x * 10) : ℤ) : α) / 10

end Rounding

/-! ## vat_rules.py : class VATRules -/

namespace VATRules

variable {α : Type} [LinearOrderedField α] [FloorRing α]

/-- French VAT rates table (vat_rules.py, __init__). -/
def vat_rates : List (String × α) :=
  [("standard", 0.20), ("reduced", 0.10), ("super_reduced", 0.055)]

/-- Task-specific VAT classifications (vat_rules.py, __init__). -/
def task_vat_classification : List (String × String) :=
  [("tiles", "reduced"), ("plumbing", "reduced"), ("painting", "reduced"),
   ("flooring", "reduced"), ("vanity", "standard"), ("electrical", "reduced")]

/-- Conditions attached to the reduced rate (vat_rules.py, __init__,
self.vat_conditions["reduced"]). -/
structure ReducedConditions (α : Type) where
  min_work_value : α
  max_work_value : α
  property_age : ℤ
  work_type : String

/-- The single entry of self.vat_conditions. -/
def vat_conditions_reduced : ReducedConditions α :=
  { min_work_value := 1000.0
    max_work_value := 50000.0
    property_age := 2
    work_type := "renovation" }

/-- VATRules._is_eligible_for_reduced_vat. -/
def is_eligible_for_reduced_vat (work_value : α) (property_age : ℤ) : Bool :=
  let conditions : ReducedConditions α := vat_conditions_reduced
  if ¬ (conditions.min_work_value ≤ work_value ∧
        work_value ≤ conditions.max_work_value) then false
  else if property_age < conditions.property_age then false
  else true

/-- VATRules.get_vat_rate. -/
def get_vat_rate (task : String) (work_value : α := 0.0)
    (property_age : ℤ := 10) : α :=
  match (task_vat_classification).lookup task with
  | none => ((vat_rates (α := α)).lookup "standard").getD 0
  | some vat_type =>
    if vat_type = "reduced" then
      if is_eligible_for_reduced_vat work_value property_age then
        ((vat_rates (α := α)).lookup "reduced").getD 0
      else
        ((vat_rates (α := α)).lookup "standard").getD 0
    else ((vat_rates (α := α)).lookup vat_type).getD 0

/-- Result dictionary of VATRules.calculate_task_vat. -/
structure TaskVat (α : Type) where
  vat_rate : α
  vat_amount : α
  vat_type : String

/-- VATRules.calculate_task_vat. -/
def calculate_task_vat (task : String) (amount : α) (work_value : α := 0.0)
    (property_age : ℤ := 10) : TaskVat α :=
  let vat_rate := get_vat_rate task work_value property_age
  { vat_rate := vat_rate
    vat_amount := round2 (amount * vat_rate)
    vat_type := ((task_vat_classification).lookup task).getD "standard" }

/-- VATRules.calculate_total_vat: the per-line loop accumulating materials
and labor VAT, then a final round to two decimals. -/
def calculate_total_vat (task_prices : List (PyDict α)) (work_value : α := 0.0)
    (property_age : ℤ := 10) : α :=
  round2 (task_prices.foldl (fun total_vat task_price =>
    let task_type := getStr task_price "task_type" ""
    let materials := getNum task_price "materials" 0.0
    let labor := getNum task_price "labor" 0.0
    let materials_vat := calculate_task_vat task_type materials work_value property_age
    let labor_vat := calculate_task_vat task_type labor work_value property_age
    total_vat + (materials_vat.vat_amount + labor_vat.vat_amount)) 0.0)

end VATRules

/-! ## material_db.py : class MaterialDatabase -/

namespace MaterialDatabase

/-- Specification of a per-square-meter material entry (tiles, flooring). -/
structure PerAreaSpec where
  base_cost_per_m2 : ℝ
  size_factor : ℝ
  quality_multipliers : List (String × ℝ)

/-- Specification of one plumbing fixture. -/
structure FixtureSpec where
  base_cost : ℝ
  size_factor : ℝ

/-- The painting entry additionally carries a coat count. -/
structure PaintingSpec where
  base_cost_per_m2 : ℝ
  size_factor : ℝ
  coats : ℝ
  quality_multipliers : List (String × ℝ)

/-- The vanity entry: a flat base cost with quality multipliers. -/
structure VanitySpec where
  base_cost : ℝ
  size_factor : ℝ
  quality_multipliers : List (String × ℝ)

/-- The electrical entry: base cost plus a per-outlet cost. -/
structure ElectricalSpec where
  base_cost : ℝ
  size_factor : ℝ
  per_outlet : ℝ

/-- materials["tiles"] from _load_default_materials. -/
def tiles_materials : PerAreaSpec :=
  { base_cost_per_m2 := 45.0
    size_factor := 0.95
    quality_multipliers :=
      [("basic", 0.8), ("standard", 1.0), ("premium", 1.4), ("luxury", 2.0)] }

/-- materials["plumbing"] from _load_default_materials: shower, toilet, sink
and bath fixtures, in dictionary insertion order. -/
def plumbing_materials : List (String × FixtureSpec) :=
  [("shower", { base_cost := 180.0, size_factor := 0.9 }),
   ("toilet", { base_cost := 120.0, size_factor := 1.0 }),
   ("sink", { base_cost := 85.0, size_factor := 0.95 }),
   ("bath", { base_cost := 350.0, size_factor := 1.1 })]

/-- materials["painting"] from _load_default_materials. -/
def painting_materials : PaintingSpec :=
  { base_cost_per_m2 := 8.5
    size_factor := 1.05
    coats := 2
    quality_multipliers := [("basic", 0.7), ("standard", 1.0), ("premium", 1.3)] }

/-- materials["flooring"] from _load_default_materials. -/
def flooring_materials : PerAreaSpec :=
  { base_cost_per_m2 := 32.0
    size_factor := 0.98
    quality_multipliers := [("basic", 0.8), ("standard", 1.0), ("premium", 1.5)] }

/-- materials["vanity"] from _load_default_materials. -/
def vanity_materials : VanitySpec :=
  { base_cost := 220.0
    size_factor := 1.0
    quality_multipliers := [("basic", 0.7), ("standard", 1.0), ("premium", 1.6)] }

/-- materials["electrical"] from _load_default_materials. -/
def electrical_materials : ElectricalSpec :=
  { base_cost := 45.0, size_factor := 1.0, per_outlet := 15.0 }

/-- Wall area used by the tiles and painting formulas:
(bathroom_size ** 0.5 * 4) * wall_height with wall_height = 2.4. -/
noncomputable def wall_area (bathroom_size : ℝ) : ℝ :=
  (Real.sqrt bathroom_size * 4) * 2.4

/-- MaterialDatabase._calculate_tiles_cost. -/
noncomputable def _calculate_tiles_cost (materials : PerAreaSpec)
    (bathroom_size : ℝ) (quality : String) : ℝ :=
  let base_cost := materials.base_cost_per_m2
  let size_factor := materials.size_factor
  let quality_mult := (materials.quality_multipliers.lookup quality).getD 1.0
  round2 (wall_area bathroom_size * base_cost * size_factor * quality_mult)

/-- MaterialDatabase._calculate_plumbing_cost: the loop sums base_cost ×
size_factor over every fixture in materials["plumbing"]; the bathroom_size
argument is accepted but unused. -/
noncomputable def _calculate_plumbing_cost (materials : List (String × FixtureSpec))
    (_bathroom_size : ℝ) : ℝ :=
  round2 (materials.foldl
    (fun total_cost fixture => total_cost + fixture.2.base_cost * fixture.2.size_factor)
    0.0)

/-- MaterialDatabase._calculate_painting_cost. -/
noncomputable def _calculate_painting_cost (materials : PaintingSpec)
    (bathroom_size : ℝ) (quality : String) : ℝ :=
  let base_cost := materials.base_cost_per_m2
  let size_factor := materials.size_factor
  let quality_mult := (materials.quality_multipliers.lookup quality).getD 1.0
  let coats := materials.coats
  round2 (wall_area bathroom_size * base_cost * size_factor * quality_mult * coats)

/-- MaterialDatabase._calculate_flooring_cost. -/
noncomputable def _calculate_flooring_cost (materials : PerAreaSpec)
    (bathroom_size : ℝ) (quality : String) : ℝ :=
  let base_cost := materials.base_cost_per_m2
  let size_factor := materials.size_factor
  let quality_mult := (materials.quality_multipliers.lookup quality).getD 1.0
  round2 (bathroom_size * base_cost * size_factor * quality_mult)

/-- MaterialDatabase._calculate_vanity_cost. -/
noncomputable def _calculate_vanity_cost (materials : VanitySpec) (quality : String) : ℝ :=
  let base_cost := materials.base_cost
  let quality_mult := (materials.quality_multipliers.lookup quality).getD 1.0
  round2 (base_cost * quality_mult)

/-- Outlet count bracket shared by the electrical material and labor
formulas: size ≤ 4 gives 2, size ≤ 6 gives 3, otherwise 4. -/
noncomputable def outlet_count (bathroom_size : ℝ) : ℝ :=
  if bathroom_size ≤ 4 then 2 else if bathroom_size ≤ 6 then 3 else 4

/-- MaterialDatabase._calculate_electrical_cost. -/
noncomputable def _calculate_electrical_cost (materials : ElectricalSpec)
    (bathroom_size : ℝ) : ℝ :=
  let outlet_cost := outlet_count bathroom_size * materials.per_outlet
  round2 (materials.base_cost * materials.size_factor + outlet_cost)

/-- Keys of self.materials, in insertion order. -/
def material_keys : List String :=
  ["tiles", "plumbing", "painting", "flooring", "vanity", "electrical"]

/-- MaterialDatabase.get_task_materials_cost: membership test against the
materials table, then per-task dispatch; unknown tasks cost 0. -/
noncomputable def get_task_materials_cost (task : String) (bathroom_size : ℝ)
    (quality : String := "standard") : ℝ :=
  if ¬ material_keys.contains task then 0.0
  else if task = "tiles" then _calculate_tiles_cost tiles_materials bathroom_size quality
  else if task = "plumbing" then _calculate_plumbing_cost plumbing_materials bathroom_size
  else if task = "painting" then _calculate_painting_cost painting_materials bathroom_size quality
  else if task = "flooring" then _calculate_flooring_cost flooring_materials bathroom_size quality
  else if task = "vanity" then _calculate_vanity_cost vanity_materials quality
  else if task = "electrical" then _calculate_electrical_cost electrical_materials bathroom_size
  else 0.0

end MaterialDatabase

/-! ## labor_calc.py : class LaborCalculator -/

namespace LaborCalculator

/-- Hourly rates table (labor_calc.py, __init__). -/
def hourly_rates : List (String × ℝ) :=
  [("tiles", 45.0), ("plumbing", 55.0), ("painting", 35.0),
   ("flooring", 40.0), ("vanity", 42.0), ("electrical", 48.0)]

/-- LaborCalculator._get_complexity_multiplier. -/
def _get_complexity_multiplier (complexity : String) : ℝ :=
  ([("simple", 0.8), ("standard", 1.0), ("complex", 1.3)].lookup complexity).getD 1.0

/-- LaborCalculator._calculate_tiles_duration: per-m2 hours 2.5 over the
wall area, setup 2.0 and cleanup 1.5, rounded to one decimal. -/
noncomputable def _calculate_tiles_duration (bathroom_size : ℝ)
    (complexity : String) : ℝ :=
  let area_time := MaterialDatabase.wall_area bathroom_size * 2.5
  let total_time := area_time + 2.0 + 1.5
  round1 (total_time * _get_complexity_multiplier complexity)

/-- LaborCalculator._calculate_plumbing_duration: shower 8.0, toilet 4.0 and
sink 3.0 hours (bath deliberately excluded), setup 1.0 and testing 2.0. -/
noncomputable def _calculate_plumbing_duration (complexity : String) : ℝ :=
  let fixture_time := (8.0 : ℝ) + 4.0 + 3.0
  let total_time := fixture_time + 1.0 + 2.0
  round1 (total_time * _get_complexity_multiplier complexity)

/-- LaborCalculator._calculate_painting_duration. -/
noncomputable def _calculate_painting_duration (bathroom_size : ℝ)
    (complexity : String) : ℝ :=
  let area_time := MaterialDatabase.wall_area bathroom_size * 0.3
  let total_time := area_time + 1.5 + 1.0
  round1 (total_time * _get_complexity_multiplier complexity)

/-- LaborCalculator._calculate_flooring_duration. -/
noncomputable def _calculate_flooring_duration (bathroom_size : ℝ)
    (complexity : String) : ℝ :=
  let area_time := bathroom_size * 1.8
  let total_time := area_time + 2.0 + 1.0
  round1 (total_time * _get_complexity_multiplier complexity)

/-- LaborCalculator._calculate_vanity_duration. -/
noncomputable def _calculate_vanity_duration (complexity : String) : ℝ :=
  let total_time := (3.0 : ℝ) + 1.5 + 0.5
  round1 (total_time * _get_complexity_multiplier complexity)

/-- LaborCalculator._calculate_electrical_duration. -/
noncomputable def _calculate_electrical_duration (bathroom_size : ℝ)
    (complexity : String) : ℝ :=
  let outlet_time := MaterialDatabase.outlet_count bathroom_size * 0.5
  let total_time := 2.0 + outlet_time + 1.0
  round1 (total_time * _get_complexity_multiplier complexity)

/-- LaborCalculator.get_task_duration. -/
noncomputable def get_task_duration (task : String) (bathroom_size : ℝ)
    (complexity : String := "standard") : ℝ :=
  if task = "tiles" then _calculate_tiles_duration bathroom_size complexity
  else if task = "plumbing" then _calculate_plumbing_duration complexity
  else if task = "painting" then _calculate_painting_duration bathroom_size complexity
  else if task = "flooring" then _calculate_flooring_duration bathroom_size complexity
  else if task = "vanity" then _calculate_vanity_duration complexity
  else if task = "electrical" then _calculate_electrical_duration bathroom_size complexity
  else 0.0

/-- LaborCalculator.calculate_labor_cost. -/
noncomputable def calculate_labor_cost (task : String) (bathroom_size : ℝ)
    (complexity : String := "standard") : ℝ :=
  match hourly_rates.lookup task with
  | none => 0.0
  | some hourly_rate =>
    let total_hours := get_task_duration task bathroom_size complexity
    let complexity_multiplier := _get_complexity_multiplier complexity
    round2 (total_hours * hourly_rate * complexity_multiplier)

end LaborCalculator

/-! ## confidence_scorer.py : class ConfidenceScorer

The Python class accumulates flags in a mutable self.flags list that is
reset at the start of calculate_confidence. The embedding makes the state
explicit: each sub-scorer returns the pair of its score and the flags it
appends, and confidence_flags concatenates them in call order
(size, then task, then price; location and complexity never flag). -/

namespace ConfidenceScorer

variable {α : Type} [LinearOrderedField α] [FloorRing α]

/-- One bathroom-size bracket: bounds (none = float("inf")), score, flag. -/
structure SizeRange (α : Type) where
  lo : α
  hi : Option α
  score : α
  flag : Option String

/-- confidence_factors["bathroom_size"], in dictionary insertion order. -/
def bathroom_size_ranges : List (SizeRange α) :=
  [{ lo := 0, hi := some 2, score := 0.7, flag := some "unusually_small" },
   { lo := 2, hi := some 4, score := 0.9, flag := none },
   { lo := 4, hi := some 8, score := 1.0, flag := none },
   { lo := 8, hi := some 12, score := 0.95, flag := none },
   { lo := 12, hi := none, score := 0.8, flag := some "unusually_large" }]

/-- Comparison against a bracket upper bound, where none stands for the
float("inf") bound of the last bracket. -/
def below_hi (bathroom_size : α) : Option α → Bool
  | some hi => decide (bathroom_size < hi)
  | none => true

/-- The range scan of _calculate_size_confidence: first bracket with
lo ≤ size < hi wins; falling through every bracket yields 0.7 with an
"unusually_large" flag. -/
def scan_size_ranges (bathroom_size : α) : List (SizeRange α) → α × List String
  | [] => (0.7, ["unusually_large"])
  | r :: rest =>
    if r.lo ≤ bathroom_size ∧ below_hi bathroom_size r.hi then
      (r.score, r.flag.toList)
    else scan_size_ranges bathroom_size rest

/-- ConfidenceScorer._calculate_size_confidence, returning score and flags. -/
def _calculate_size_confidence (bathroom_size : α) : α × List String :=
  scan_size_ranges bathroom_size bathroom_size_ranges

/-- confidence_factors["location_confidence"]. -/
def location_confidence_table : List (String × α) :=
  [("paris", 0.95), ("marseille", 1.0), ("lyon", 0.9), ("toulouse", 0.9),
   ("nice", 0.9), ("nantes", 0.9), ("strasbourg", 0.9), ("montpellier", 0.9)]

/-- ConfidenceScorer._calculate_location_confidence. -/
def _calculate_location_confidence (location : String) : α :=
  ((location_confidence_table (α := α)).lookup location).getD 0.8

/-- ConfidenceScorer._calculate_task_confidence, returning score and flags. -/
def _calculate_task_confidence (tasks : List String) : α × List String :=
  if tasks = [] then (0.5, ["no_tasks_detected"])
  else
    let single_flags := if tasks.length = 1 then ["single_task_project"] else []
    let many_flags := if tasks.length > 5 then ["many_tasks"] else []
    let missing_essential := ["plumbing", "tiles"].filter (fun e => ¬ tasks.contains e)
    let missing_flags :=
      if missing_essential ≠ [] then
        ["missing_essential_tasks: " ++ String.intercalate ", " missing_essential]
      else []
    let score : α :=
      if tasks.length ≤ 2 then 0.8 else if tasks.length ≤ 4 then 0.9 else 0.85
    (score, single_flags ++ many_flags ++ missing_flags)

/-- Historical pricing entry (min, max, avg). -/
structure HistoricalEntry (α : Type) where
  min : α
  max : α
  avg : α

/-- self.historical_pricing, in dictionary insertion order. -/
def historical_pricing : List (String × HistoricalEntry α) :=
  [("tiles", { min := 35, max := 65, avg := 50 }),
   ("plumbing", { min := 120, max := 200, avg := 160 }),
   ("painting", { min := 6, max := 12, avg := 9 }),
   ("flooring", { min := 25, max := 45, avg := 35 }),
   ("vanity", { min := 180, max := 300, avg := 240 }),
   ("electrical", { min := 35, max := 60, avg := 48 })]

/-- One price bracket: ratio multiplier bound, score, flag. -/
structure PriceThreshold (α : Type) where
  multiplier : α
  score : α
  flag : Option String

/-- confidence_factors["price_thresholds"], in dictionary insertion order. -/
def price_thresholds : List (PriceThreshold α) :=
  [{ multiplier := 0.5, score := 0.6, flag := some "suspiciously_low" },
   { multiplier := 0.8, score := 0.8, flag := some "below_average" },
   { multiplier := 1.0, score := 1.0, flag := none },
   { multiplier := 1.3, score := 0.9, flag := some "above_average" },
   { multiplier := 1.8, score := 0.7, flag := some "suspiciously_high" }]

/-- The bracket scan of _calculate_price_confidence: first threshold with
ratio ≤ multiplier wins; past the last bracket the score is 0.7 with a
"suspiciously_high" flag. -/
def scan_price_thresholds (price_ratio_val : α) :
    List (PriceThreshold α) → α × List String
  | [] => (0.7, ["suspiciously_high"])
  | t :: rest =>
    if price_ratio_val ≤ t.multiplier then (t.score, t.flag.toList)
    else scan_price_thresholds price_ratio_val rest

/-- ConfidenceScorer._calculate_price_confidence, returning score and flags.
The local bathroom_size is the fixed constant 4.0 from the source, not the
requirement size; total_materials and total_labor are computed by the source
and never used. -/
def _calculate_price_confidence (task_prices : List (PyDict α))
    (final_price : α) : α × List String :=
  if task_prices = [] then (0.5, [])
  else
    let total_materials := (task_prices.map (fun tp => getNum tp "materials" 0)).sum
    let total_labor := (task_prices.map (fun tp => getNum tp "labor" 0)).sum
    let bathroom_size : α := 4.0
    let price_per_m2 := if 0 < bathroom_size then final_price / bathroom_size else 0
    let historical_avg :=
      ((historical_pricing (α := α)).map (fun p => p.2.avg)).sum
    let price_ratio_val :=
      if 0 < historical_avg then price_per_m2 / historical_avg else 1.0
    let _unused := (total_materials, total_labor)
    scan_price_thresholds price_ratio_val price_thresholds

/-- ConfidenceScorer._calculate_complexity_confidence. -/
def _calculate_complexity_confidence (tasks : List String) : α :=
  if tasks = [] then 0.5
  else
    let complexity_scores := tasks.map (fun task =>
      if ["painting", "vanity"].contains task then (0.9 : α)
      else if ["flooring", "electrical"].contains task then 0.95
      else if ["tiles", "plumbing"].contains task then 0.85
      else 0.8)
    complexity_scores.sum / (complexity_scores.length : α)

/-- The flag list accumulated in self.flags over one calculate_confidence
call, in call order: size, task, then price sub-scorer. -/
def confidence_flags (bathroom_size : α) (tasks : List String)
    (task_prices : List (PyDict α)) (final_price : α) : List String :=
  (_calculate_size_confidence bathroom_size).2 ++
    (_calculate_task_confidence (α := α) tasks).2 ++
    (_calculate_price_confidence task_prices final_price).2

/-- ConfidenceScorer.calculate_confidence: the weighted mix of the five
sub-scores, the flag penalty, the floor at zero and the final rounding.
The requirements dictionary is passed as its three used entries
(bathroom_size, location, tasks). -/
def calculate_confidence (bathroom_size : α) (location : String)
    (tasks : List String) (task_prices : List (PyDict α))
    (final_price : α) : α :=
  let size_confidence := (_calculate_size_confidence bathroom_size).1
  let location_confidence := _calculate_location_confidence (α := α) location
  let task_confidence := (_calculate_task_confidence (α := α) tasks).1
  let price_confidence := (_calculate_price_confidence task_prices final_price).1
  let complexity_confidence := _calculate_complexity_confidence (α := α) tasks
  let weighted_confidence :=
    size_confidence * 0.15 + location_confidence * 0.10 +
      task_confidence * 0.20 + price_confidence * 0.35 +
      complexity_confidence * 0.20
  let confidence_percentage := weighted_confidence * 100
  let flag_penalty :=
    min (((confidence_flags bathroom_size tasks task_prices final_price).length : α)
      * 0.05) 0.20
  round1 (max (confidence_percentage * (1 - flag_penalty)) 0)

/-- ConfidenceScorer.suggest_improvements: one pass over the fired flags,
emitting the suggestion of each branch whose flag name matches exactly. -/
def suggest_improvements (flags : List String) : List String :=
  flags.foldr (fun flag suggestions =>
    (if flag = "suspiciously_low" then
      ["Review material and labor costs - prices seem unusually low"]
    else if flag = "suspiciously_high" then
      ["Review pricing calculations - prices seem unusually high"]
    else if flag = "unusually_small" then
      ["Verify bathroom size - very small bathrooms may need special considerations"]
    else if flag = "unusually_large" then
      ["Verify bathroom size - very large bathrooms may need different pricing model"]
    else if flag = "missing_essential_tasks" then
      ["Consider adding essential renovation tasks for complete bathroom renovation"]
    else if flag = "single_task_project" then
      ["Single task projects may need different pricing approach"]
    else if flag = "many_tasks" then
      ["Many tasks detected - verify all are necessary for this project"]
    else []) ++ suggestions) []

end ConfidenceScorer

/-! ## pricing_engine.py : class SmartPricingEngine -/

namespace SmartPricingEngine

/-- Python str.strip character class: whitespace. -/
def isPySpace (c : Char) : Bool := c.isWhitespace

/-- Python str.strip: drop whitespace at both ends. -/
def pyStrip (t : List Char) : List Char :=
  ((t.dropWhile isPySpace).reverse.dropWhile isPySpace).reverse

/-- Whether the needle occurs at the head of the haystack. -/
def headMatch : List Char → List Char → Bool
  | [], _ => true
  | _ :: _, [] => false
  | a :: as, b :: bs => a = b && headMatch as bs

/-- Python substring containment (needle in haystack) on character lists. -/
def containsSub (needle : List Char) : List Char → Bool
  | [] => needle.isEmpty
  | c :: rest => headMatch needle (c :: rest) || containsSub needle rest

/-- City-based pricing multipliers (pricing_engine.py, __init__), in
dictionary insertion order. -/
def city_multipliers : List (String × ℝ) :=
  [("marseille", 1.0), ("paris", 1.3), ("nice", 1.25), ("lyon", 1.15),
   ("toulouse", 1.1), ("nantes", 1.05), ("strasbourg", 1.1), ("montpellier", 1.05)]

/-- Keys of city_multipliers, in order, as scanned by _extract_location. -/
def city_keys : List String :=
  ["marseille", "paris", "nice", "lyon", "toulouse", "nantes", "strasbourg",
   "montpellier"]

/-- SmartPricingEngine._extract_location: first listed city occurring as a
substring, defaulting to marseille. -/
def _extract_location (transcript : List Char) : String :=
  (city_keys.find? (fun city => containsSub city.toList transcript)).getD "marseille"

/-- Task keyword table of _extract_tasks, in dictionary insertion order. -/
def task_keywords : List (String × List String) :=
  [("tiles", ["tiles", "tile", "ceramic", "porcelain"]),
   ("plumbing", ["plumbing", "shower", "bath", "sink", "toilet"]),
   ("painting", ["paint", "repaint", "wall"]),
   ("flooring", ["floor", "flooring", "laying"]),
   ("vanity", ["vanity", "cabinet", "storage"]),
   ("electrical", ["electrical", "lighting", "outlet", "switch"])]

/-- SmartPricingEngine._extract_tasks: iterate the keyword table in order
and keep each task type one of whose keywords occurs in the transcript. -/
def _extract_tasks (transcript : List Char) : List String :=
  (task_keywords.filter
    (fun p => p.2.any (fun keyword => containsSub keyword.toList transcript))).map
    Prod.fst

/-- Numeric value of a digit run. -/
def digitsVal (ds : List Char) : ℕ :=
  ds.foldl (fun acc c => acc * 10 + (c.toNat - 48)) 0

/-- One attempt of the size pattern at the head of the text: a digit run,
an optional dot plus digit run, whitespace, then the letters m².
Because a shorter greedy choice always leaves a digit adjacent to the next
sub-pattern, the greedy reading coincides with the regex backtracking
semantics of (\d+(?:\.\d+)?)\s*m². -/
def matchSizeAt (t : List Char) : Option ℚ :=
  let ds := t.takeWhile Char.isDigit
  if ds = [] then none
  else
    let rest := t.drop ds.length
    let fracPair : List Char × List Char :=
      match rest with
      | '.' :: r =>
        let fs := r.takeWhile Char.isDigit
        if fs = [] then ([], rest) else (fs, r.drop fs.length)
      | _ => ([], rest)
    let rest2 := fracPair.2.dropWhile isPySpace
    if headMatch ['m', '²'] rest2 then
      some ((digitsVal ds : ℚ) + (digitsVal fracPair.1 : ℚ) / (10 ^ fracPair.1.length))
    else none

/-- Leftmost match of the size pattern (re.search semantics). -/
def searchSize : List Char → Option ℚ
  | [] => none
  | c :: rest =>
    match matchSizeAt (c :: rest) with
    | some v => some v
    | none => searchSize rest

/-- The requirements record produced by parse_transcript. -/
structure Requirements where
  bathroom_size : ℚ
  location : String
  tasks : List String
  budget_conscious : Bool
  original_transcript : List Char

/-- SmartPricingEngine.parse_transcript: validation of the raw text, then
extraction of size, location, tasks (with the painting fallback) and the
budget flag from the lowercased, stripped transcript. -/
def parse_transcript (transcript : List Char) : Except String Requirements :=
  if transcript = [] then
    Except.error "Transcript must be a non-empty string"
  else if (pyStrip transcript).length < 10 then
    Except.error "Transcript too short - please provide more details"
  else
    let transcript_lower := pyStrip (transcript.map Char.toLower)
    let bathroom_size := (searchSize transcript_lower).getD 4.0
    let location := _extract_location transcript_lower
    let tasks := _extract_tasks transcript_lower
    let tasks := if tasks = [] then ["painting"] else tasks
    let budget_conscious :=
      ["budget", "cheap", "affordable", "economy"].any
        (fun word => containsSub word.toList transcript_lower)
    Except.ok
      { bathroom_size := bathroom_size
        location := location
        tasks := tasks
        budget_conscious := budget_conscious
        original_transcript := transcript }

/-- SmartPricingEngine._calculate_task_price. The body is guarded by a
try/except whose only fallible operation is the city-multiplier dictionary
index; a missing key produces the fixed fallback line with an error mark. -/
noncomputable def _calculate_task_price (task : String) (requirements : Requirements) :
    PyDict ℝ :=
  match city_multipliers.lookup requirements.location with
  | some city_multiplier =>
    let material_cost :=
      MaterialDatabase.get_task_materials_cost task (requirements.bathroom_size : ℝ)
    let labor_cost :=
      LaborCalculator.calculate_labor_cost task (requirements.bathroom_size : ℝ)
    let adjusted_material_cost := material_cost * city_multiplier
    let adjusted_labor_cost := labor_cost * city_multiplier
    [("task", DictVal.str task),
     ("materials", DictVal.num adjusted_material_cost),
     ("labor", DictVal.num adjusted_labor_cost),
     ("total", DictVal.num (adjusted_material_cost + adjusted_labor_cost)),
     ("city_multiplier", DictVal.num city_multiplier)]
  | none =>
    [("task", DictVal.str task),
     ("materials", DictVal.num 100.0),
     ("labor", DictVal.num 200.0),
     ("total", DictVal.num 300.0),
     ("city_multiplier", DictVal.num 1.0),
     ("error", DictVal.str "KeyError")]

/-- SmartPricingEngine._apply_margin_protection. -/
noncomputable def _apply_margin_protection (base_price : ℝ)
    (budget_conscious : Bool) : ℝ :=
  let margin : ℝ := if budget_conscious then 0.15 else 0.25
  base_price * (1 + margin)

/-- SmartPricingEngine._calculate_margin_percentage. -/
noncomputable def _calculate_margin_percentage (subtotal final_price : ℝ) : ℝ :=
  if 0 < subtotal then ((final_price - subtotal) / subtotal) * 100 else 0.0

/-- SmartPricingEngine._calculate_total_duration. -/
noncomputable def _calculate_total_duration (task_prices : List (PyDict ℝ))
    (requirements : Requirements) : ℝ :=
  (task_prices.map (fun task =>
    LaborCalculator.get_task_duration (getStr task "task" "")
      (requirements.bathroom_size : ℝ))).sum

/-- The pricing_breakdown and business_metrics content of a generated quote.
The time-derived quote_id, timestamps and constant metadata strings are not
modelled. -/
structure Quote where
  client_requirements : Requirements
  tasks : List (PyDict ℝ)
  labor_total : ℝ
  materials_total : ℝ
  vat_amount : ℝ
  subtotal : ℝ
  final_price : ℝ
  confidence_score : ℝ
  margin_percentage : ℝ
  city_multiplier : ℝ
  total_duration : ℝ

/-- Body of SmartPricingEngine.generate_quote after parsing succeeded.
The one remaining fallible operation is the direct city-multiplier index in
business_metrics; its failure is surfaced as the KeyError that the outer
try/except turns into a RuntimeError. -/
noncomputable def build_quote (requirements : Requirements) : Except String Quote :=
  let task_prices := requirements.tasks.map
    (fun task => _calculate_task_price task requirements)
  let total_labor := (task_prices.map (fun tp => getNum tp "labor" 0)).sum
  let total_materials := (task_prices.map (fun tp => getNum tp "materials" 0)).sum
  let vat_amount := VATRules.calculate_total_vat task_prices
  let subtotal := total_labor + total_materials
  let total_with_vat := subtotal + vat_amount
  let final_price := _apply_margin_protection total_with_vat requirements.budget_conscious
  let confidence_score :=
    ConfidenceScorer.calculate_confidence (requirements.bathroom_size : ℝ)
      requirements.location requirements.tasks task_prices final_price
  match city_multipliers.lookup requirements.location with
  | none => Except.error "KeyError"
  | some city_multiplier =>
    Except.ok
      { client_requirements := requirements
        tasks := task_prices
        labor_total := total_labor
        materials_total := total_materials
        vat_amount := vat_amount
        subtotal := subtotal
        final_price := final_price
        confidence_score := confidence_score
        margin_percentage := _calculate_margin_percentage subtotal final_price
        city_multiplier := city_multiplier
        total_duration := _calculate_total_duration task_prices requirements }

/-- SmartPricingEngine.generate_quote: parse, then build; any error is
re-raised as the RuntimeError message of the outer try/except. -/
noncomputable def generate_quote (transcript : List Char) : Except String Quote :=
  match parse_transcript transcript with
  | Except.error e => Except.error ("Failed to generate quote: " ++ e)
  | Except.ok requirements =>
    match build_quote requirements with
    | Except.error e => Except.error ("Failed to generate quote: " ++ e)
    | Except.ok quote => Except.ok quote

end SmartPricingEngine

/-! ## Spec-side definitions used for refinement comparisons -/

/-- Spec-side bucket score of the price-plausibility ratio, written from
the spec sentence: ratio at most 0.5 scores 0.6, at most 0.8 scores 0.8,
at most 1.0 scores 1.0, at most 1.3 scores 0.9, and 0.7 beyond. -/
def bucket_score_spec {α : Type} [LinearOrderedField α] (r : α) : α :=
  if r ≤ 0.5 then 0.6
  else if r ≤ 0.8 then 0.8
  else if r ≤ 1.0 then 1.0
  else if r ≤ 1.3 then 0.9
  else if r ≤ 1.8 then 0.7
  else 0.7

/-- Spec-side per-flag suggestion mapping: the suggestion emitted for one
fired flag, or none when no suggestion branch matches that flag exactly. -/
def suggestion_for_flag_spec (flag : String) : Option String :=
  if flag = "suspiciously_low" then
    some "Review material and labor costs - prices seem unusually low"
  else if flag = "suspiciously_high" then
    some "Review pricing calculations - prices seem unusually high"
  else if flag = "unusually_small" then
    some "Verify bathroom size - very small bathrooms may need special considerations"
  else if flag = "unusually_large" then
    some "Verify bathroom size - very large bathrooms may need different pricing model"
  else if flag = "missing_essential_tasks" then
    some "Consider adding essential renovation tasks for complete bathroom renovation"
  else if flag = "single_task_project" then
    some "Single task projects may need different pricing approach"
  else if flag = "many_tasks" then
    some "Many tasks detected - verify all are necessary for this project"
  else none

/-! ## General helper lemmas -/

section RoundingLemmas

variable {α : Type} [LinearOrderedField α] [FloorRing α]

theorem round_mono_of_le {x y : α} (h : x ≤ y) : round x ≤ round y := by
  rw [round_eq, round_eq]
  exact Int.floor_le_floor (by linarith)

theorem round2_int_div (k : ℤ) : round2 ((k : α) / 100) = (k : α) / 100 := by
  have h : ((k : α) / 100) * 100 = (k : α) := by
    field_simp
  rw [round2, h, round_intCast]

theorem round2_mono {x y : α} (h : x ≤ y) : round2 x ≤ round2 y := by
  have := round_mono_of_le (x := x * 100) (y := y * 100) (by nlinarith)
  unfold round2
  have hc : ((round (x * 100) : ℤ) : α) ≤ ((round (y * 100) : ℤ) : α) := by
    exact_mod_cast this
  linarith

theorem round1_mono {x y : α} (h : x ≤ y) : round1 x ≤ round1 y := by
  have := round_mono_of_le (x := x * 10) (y := y * 10) (by nlinarith)
  unfold round1
  have hc : ((round (x * 10) : ℤ) : α) ≤ ((round (y * 10) : ℤ) : α) := by
    exact_mod_cast this
  linarith

theorem round1_zero : round1 (0 : α) = 0 := by
  simp [round1]

theorem round1_hundred : round1 (100 : α) = 100 := by
  norm_num [round1, round_eq]

end RoundingLemmas

theorem foldl_add_eq_sum {β M : Type} [AddCommMonoid M] (f : β → M) :
    ∀ (l : List β) (init : M),
      l.foldl (fun acc b => acc + f b) init = init + (l.map f).sum
  | [], init => by simp
  | b :: bs, init => by
    simp only [List.foldl_cons, List.map_cons, List.sum_cons]
    rw [foldl_add_eq_sum f bs (init + f b), add_assoc]

theorem exists_int_div_sum {α : Type} [LinearOrderedField α] (l : List α)
    (h : ∀ x ∈ l, ∃ k : ℤ, x = (k : α) / 100) :
    ∃ K : ℤ, l.sum = (K : α) / 100 := by
  induction l with
  | nil => exact ⟨0, by simp⟩
  | cons a l ih =>
    obtain ⟨k, hk⟩ := h a (List.mem_cons_self a l)
    obtain ⟨K, hK⟩ := ih (fun x hx => h x (List.mem_cons_of_mem a hx))
    refine ⟨k + K, ?_⟩
    rw [List.sum_cons, hk, hK]
    push_cast
    ring

theorem round2_is_int_div {α : Type} [LinearOrderedField α] [FloorRing α]
    (x : α) : ∃ k : ℤ, round2 x = (k : α) / 100 :=
  ⟨round (x * 100), rfl⟩

theorem round2_sum_collapse {α : Type} [LinearOrderedField α] [FloorRing α]
    (l : List α) (h : ∀ x ∈ l, ∃ k : ℤ, x = (k : α) / 100) :
    round2 l.sum = l.sum := by
  obtain ⟨K, hK⟩ := exists_int_div_sum l h
  rw [hK, round2_int_div]

theorem lookup_getD_pred {α : Type} (P : α → Prop) (d : α) (k : String) :
    ∀ (l : List (String × α)), P d → (∀ p ∈ l, P p.2) →
      P ((l.lookup k).getD d)
  | [], hd, _ => hd
  | (a, b) :: t, hd, hl => by
    by_cases hk : k = a
    · simpa [List.lookup, hk] using hl (a, b) (List.mem_cons_self _ _)
    · have : (k == a) = false := by simp [hk]
      simpa [List.lookup, this] using
        lookup_getD_pred P d k t hd (fun p hp => hl p (List.mem_cons_of_mem _ hp))

/-! ## Claim C3 -/

theorem eligible_iff {α : Type} [LinearOrderedField α] [FloorRing α]
    (work_value : α) (property_age : ℤ) :
    VATRules.is_eligible_for_reduced_vat work_value property_age = true ↔
      (1000 ≤ work_value ∧ work_value ≤ 50000 ∧ 2 ≤ property_age) := by
  have e1 : (1000.0 : α) = 1000 := by norm_num
  have e2 : (50000.0 : α) = 50000 := by norm_num
  simp only [VATRules.is_eligible_for_reduced_vat, VATRules.vat_conditions_reduced,
    e1, e2]
  split_ifs with h1 h2
  · exact iff_of_false (by simp) (fun hc => absurd hc.2.2 (by omega))
  · exact iff_of_true rfl ⟨h1.1, h1.2, by omega⟩
  · exact iff_of_false (by simp) (fun hc => h1 ⟨hc.1, hc.2.1⟩)

theorem get_vat_rate_class_some {α : Type} [LinearOrderedField α] [FloorRing α]
    (task vt : String) (work_value : α) (property_age : ℤ)
    (h : VATRules.task_vat_classification.lookup task = some vt) :
    VATRules.get_vat_rate task work_value property_age =
      (if vt = "reduced" then
        if VATRules.is_eligible_for_reduced_vat work_value property_age then
          ((VATRules.vat_rates (α := α)).lookup "reduced").getD 0
        else ((VATRules.vat_rates (α := α)).lookup "standard").getD 0
      else ((VATRules.vat_rates (α := α)).lookup vt).getD 0) := by
  rw [VATRules.get_vat_rate, h]

theorem get_vat_rate_class_none {α : Type} [LinearOrderedField α] [FloorRing α]
    (task : String) (work_value : α) (property_age : ℤ)
    (h : VATRules.task_vat_classification.lookup task = none) :
    VATRules.get_vat_rate task work_value property_age =
      ((VATRules.vat_rates (α := α)).lookup "standard").getD 0 := by
  rw [VATRules.get_vat_rate, h]

theorem vat_rates_standard_val {α : Type} [LinearOrderedField α] [FloorRing α] :
    ((VATRules.vat_rates (α := α)).lookup "standard").getD 0 = 0.20 := rfl

theorem vat_rates_reduced_val {α : Type} [LinearOrderedField α] [FloorRing α] :
    ((VATRules.vat_rates (α := α)).lookup "reduced").getD 0 = 0.10 := rfl

/-- C3: for every task whose VAT classification is reduced, and for every
work value and property age, get_vat_rate returns the reduced rate 0.10
exactly when 1000 ≤ work_value ≤ 50000 and property_age ≥ 2 and the
standard rate 0.20 otherwise; a task absent from the classification table
always gets the standard rate, whatever the work value and age. -/
theorem c3_reduced_rate_gating {α : Type} [LinearOrderedField α] [FloorRing α]
    (task : String) (work_value : α) (property_age : ℤ)
    (h : VATRules.task_vat_classification.lookup task = some "reduced" ∨
         VATRules.task_vat_classification.lookup task = none) :
    VATRules.get_vat_rate task work_value property_age =
      if VATRules.task_vat_classification.lookup task = some "reduced" ∧
          1000 ≤ work_value ∧ work_value ≤ 50000 ∧ 2 ≤ property_age
      then 0.10 else 0.20 := by
  rcases h with h | h
  · rw [get_vat_rate_class_some task "reduced" work_value property_age h, if_pos rfl]
    by_cases hc : 1000 ≤ work_value ∧ work_value ≤ 50000 ∧ 2 ≤ property_age
    · rw [if_pos ((eligible_iff work_value property_age).2 hc),
        vat_rates_reduced_val, if_pos ⟨h, hc⟩]
    · rw [if_neg (fun hb => hc ((eligible_iff work_value property_age).1 hb)),
        vat_rates_standard_val, if_neg (fun hx => hc hx.2)]
  · rw [get_vat_rate_class_none task work_value property_age h,
      vat_rates_standard_val, if_neg (fun hx => by rw [h] at hx; simp at hx)]

/-- Witness for C3 at the concrete reduced-class task tiles with work value
2000 and property age 10, an eligible combination. -/
theorem c3_reduced_rate_gating_witness :
    (VATRules.task_vat_classification.lookup "tiles" = some "reduced" ∨
      VATRules.task_vat_classification.lookup "tiles" = none) ∧
    VATRules.get_vat_rate "tiles" (2000 : ℚ) 10 =
      (if VATRules.task_vat_classification.lookup "tiles" = some "reduced" ∧
          1000 ≤ (2000 : ℚ) ∧ (2000 : ℚ) ≤ 50000 ∧ 2 ≤ (10 : ℤ)
       then 0.10 else 0.20) :=
  ⟨Or.inl rfl, c3_reduced_rate_gating "tiles" 2000 10 (Or.inl rfl)⟩

/-! ## Claim C4 -/

/-- Counterexample to C4 as stated: at bathroom size 4 the plumbing
material cost computed by the code is 747.75, while the claimed
shower+toilet+sink sum, rounded to two decimals, is 362.75. The plumbing
loop also adds the bath fixture (base 350, size factor 1.1). -/
theorem c4_counterexample :
    MaterialDatabase.get_task_materials_cost "plumbing" 4 "standard" = 747.75 ∧
    round2 ((180.0 : ℝ) * 0.9 + 120.0 * 1.0 + 85.0 * 0.95) = 362.75 ∧
    (747.75 : ℝ) ≠ 362.75 := by
  refine ⟨?_, ?_, by norm_num⟩
  · show MaterialDatabase._calculate_plumbing_cost
      MaterialDatabase.plumbing_materials 4 = 747.75
    rw [MaterialDatabase._calculate_plumbing_cost, MaterialDatabase.plumbing_materials]
    norm_num [round2, round_eq]
  · norm_num [round2, round_eq]

/-- C4 amended: for every bathroom size, the plumbing material cost equals
the sum of the fixed per-fixture costs of shower, toilet, sink AND bath,
each multiplied by its own size factor, rounded to two decimals; the size
argument does not affect the result. -/
theorem c4_plumbing_cost_amended (s1 s2 : ℝ) :
    MaterialDatabase.get_task_materials_cost "plumbing" s1 "standard" =
      MaterialDatabase.get_task_materials_cost "plumbing" s2 "standard" ∧
    MaterialDatabase.get_task_materials_cost "plumbing" s1 "standard" =
      round2 ((180.0 : ℝ) * 0.9 + 120.0 * 1.0 + 85.0 * 0.95 + 350.0 * 1.1) := by
  constructor
  · rfl
  · show MaterialDatabase._calculate_plumbing_cost
      MaterialDatabase.plumbing_materials s1 = _
    rw [MaterialDatabase._calculate_plumbing_cost, MaterialDatabase.plumbing_materials]
    norm_num

/-! ## Claim C5 -/

theorem sqrt_four : Real.sqrt 4 = 2 := by
  rw [show (4 : ℝ) = 2 ^ 2 by norm_num, Real.sqrt_sq (by norm_num : (0 : ℝ) ≤ 2)]

/-- Counterexample to C5 as stated: for the painting task at size 4, the
cost at quality luxury is strictly below the cost at quality premium,
because the painting quality table has no luxury entry and the lookup
falls back to the multiplier 1.0 of the standard tier. -/
theorem c5_counterexample :
    MaterialDatabase.get_task_materials_cost "painting" 4 "luxury" <
      MaterialDatabase.get_task_materials_cost "painting" 4 "premium" := by
  show round2 (MaterialDatabase.wall_area 4 * 8.5 * 1.05 * 1.0 * 2) <
    round2 (MaterialDatabase.wall_area 4 * 8.5 * 1.05 * 1.3 * 2)
  rw [MaterialDatabase.wall_area, sqrt_four]
  norm_num [round2, round_eq]

/-- C5 amended: for every task and every nonnegative size, material cost is
monotone across the quality tiers present in every table:
cost(basic) ≤ cost(standard) ≤ cost(premium); the luxury tier exists only
for tiles, where cost(premium) ≤ cost(luxury) also holds. For painting,
flooring and vanity the quality argument luxury falls back to the standard
multiplier, so cost(luxury) ≥ cost(premium) fails there. -/
theorem c5_quality_monotonicity_amended (task : String) (s : ℝ) (h : 0 ≤ s) :
    (MaterialDatabase.get_task_materials_cost task s "basic" ≤
        MaterialDatabase.get_task_materials_cost task s "standard" ∧
      MaterialDatabase.get_task_materials_cost task s "standard" ≤
        MaterialDatabase.get_task_materials_cost task s "premium") ∧
    MaterialDatabase.get_task_materials_cost "tiles" s "premium" ≤
      MaterialDatabase.get_task_materials_cost "tiles" s "luxury" := by
  have hw : (0 : ℝ) ≤ MaterialDatabase.wall_area s := by
    rw [MaterialDatabase.wall_area]
    positivity
  constructor
  · by_cases h1 : task = "tiles"
    · subst h1
      constructor
      · show round2 (MaterialDatabase.wall_area s * 45.0 * 0.95 * 0.8) ≤
          round2 (MaterialDatabase.wall_area s * 45.0 * 0.95 * 1.0)
        exact round2_mono (by nlinarith)
      · show round2 (MaterialDatabase.wall_area s * 45.0 * 0.95 * 1.0) ≤
          round2 (MaterialDatabase.wall_area s * 45.0 * 0.95 * 1.4)
        exact round2_mono (by nlinarith)
    by_cases h2 : task = "plumbing"
    · subst h2
      exact ⟨le_refl _, le_refl _⟩
    by_cases h3 : task = "painting"
    · subst h3
      constructor
      · show round2 (MaterialDatabase.wall_area s * 8.5 * 1.05 * 0.7 * 2) ≤
          round2 (MaterialDatabase.wall_area s * 8.5 * 1.05 * 1.0 * 2)
        exact round2_mono (by nlinarith)
      · show round2 (MaterialDatabase.wall_area s * 8.5 * 1.05 * 1.0 * 2) ≤
          round2 (MaterialDatabase.wall_area s * 8.5 * 1.05 * 1.3 * 2)
        exact round2_mono (by nlinarith)
    by_cases h4 : task = "flooring"
    · subst h4
      constructor
      · show round2 (s * 32.0 * 0.98 * 0.8) ≤ round2 (s * 32.0 * 0.98 * 1.0)
        exact round2_mono (by nlinarith)
      · show round2 (s * 32.0 * 0.98 * 1.0) ≤ round2 (s * 32.0 * 0.98 * 1.5)
        exact round2_mono (by nlinarith)
    by_cases h5 : task = "vanity"
    · subst h5
      constructor
      · show round2 ((220.0 : ℝ) * 0.7) ≤ round2 ((220.0 : ℝ) * 1.0)
        exact round2_mono (by norm_num)
      · show round2 ((220.0 : ℝ) * 1.0) ≤ round2 ((220.0 : ℝ) * 1.6)
        exact round2_mono (by norm_num)
    by_cases h6 : task = "electrical"
    · subst h6
      exact ⟨le_refl _, le_refl _⟩
    · have hnc : ¬ (MaterialDatabase.material_keys.contains task = true) := by
        simp only [MaterialDatabase.material_keys, List.contains_eq_any_beq,
          List.any_eq_true, beq_iff_eq]
        rintro ⟨x, hx, hxx⟩
        simp only [List.mem_cons, List.not_mem_nil, or_false] at hx
        rcases hx with h | h | h | h | h | h <;> simp_all
      rw [MaterialDatabase.get_task_materials_cost, if_pos hnc,
        MaterialDatabase.get_task_materials_cost, if_pos hnc,
        MaterialDatabase.get_task_materials_cost, if_pos hnc]
      exact ⟨le_refl _, le_refl _⟩
  · show round2 (MaterialDatabase.wall_area s * 45.0 * 0.95 * 1.4) ≤
      round2 (MaterialDatabase.wall_area s * 45.0 * 0.95 * 2.0)
    exact round2_mono (by nlinarith)

/-- Witness for C5 amended at the flooring task and size 4. -/
theorem c5_quality_monotonicity_amended_witness :
    (0 : ℝ) ≤ 4 ∧
    ((MaterialDatabase.get_task_materials_cost "flooring" 4 "basic" ≤
        MaterialDatabase.get_task_materials_cost "flooring" 4 "standard" ∧
      MaterialDatabase.get_task_materials_cost "flooring" 4 "standard" ≤
        MaterialDatabase.get_task_materials_cost "flooring" 4 "premium") ∧
    MaterialDatabase.get_task_materials_cost "tiles" 4 "premium" ≤
      MaterialDatabase.get_task_materials_cost "tiles" 4 "luxury") :=
  ⟨by norm_num, c5_quality_monotonicity_amended "flooring" 4 (by norm_num)⟩

/-! ## Claim C7 -/

/-- C7: the price-plausibility sub-score uses the fixed reference area 4.0
and never the requirement size (the sub-scorer does not even receive the
size): for any nonempty task-price list and final price it equals the
bucket score of (final_price / 4) divided by 542, where 542 is the sum of
the historical per-task average prices. -/
theorem c7_price_confidence_fixed_area {α : Type} [LinearOrderedField α]
    [FloorRing α] (task_prices : List (PyDict α)) (final_price : α)
    (h : task_prices ≠ []) :
    (ConfidenceScorer._calculate_price_confidence task_prices final_price).1 =
      bucket_score_spec (final_price / 4 / 542) ∧
    ((ConfidenceScorer.historical_pricing (α := α)).map (fun p => p.2.avg)).sum
      = 542 := by
  have hH : ((ConfidenceScorer.historical_pricing (α := α)).map
      (fun p => p.2.avg)).sum = 542 := by
    simp only [ConfidenceScorer.historical_pricing, List.map_cons, List.map_nil,
      List.sum_cons, List.sum_nil]
    norm_num
  refine ⟨?_, hH⟩
  rw [ConfidenceScorer._calculate_price_confidence, if_neg h]
  simp only [hH]
  rw [if_pos (by norm_num : (0 : α) < 4.0), if_pos (by norm_num : (0 : α) < 542)]
  have h4 : (4.0 : α) = 4 := by norm_num
  rw [h4]
  simp only [ConfidenceScorer.price_thresholds, ConfidenceScorer.scan_price_thresholds,
    bucket_score_spec]
  split_ifs <;> rfl

/-- Witness for C7 at a one-line task-price list and final price 2000. -/
theorem c7_price_confidence_fixed_area_witness :
    ([[("materials", DictVal.num (500 : ℚ))]] ≠ ([] : List (PyDict ℚ))) ∧
    ((ConfidenceScorer._calculate_price_confidence
        [[("materials", DictVal.num (500 : ℚ))]] (2000 : ℚ)).1 =
      bucket_score_spec ((2000 : ℚ) / 4 / 542) ∧
    ((ConfidenceScorer.historical_pricing (α := ℚ)).map (fun p => p.2.avg)).sum
      = 542) :=
  ⟨by simp,
   c7_price_confidence_fixed_area [[("materials", DictVal.num (500 : ℚ))]] 2000
     (by simp)⟩

/-! ## Claim C8 -/

theorem size_confidence_bounds {α : Type} [LinearOrderedField α] [FloorRing α]
    (s : α) : 0 ≤ (ConfidenceScorer._calculate_size_confidence s).1 ∧
      (ConfidenceScorer._calculate_size_confidence s).1 ≤ 1 := by
  simp only [ConfidenceScorer._calculate_size_confidence,
    ConfidenceScorer.bathroom_size_ranges, ConfidenceScorer.scan_size_ranges]
  split_ifs <;> constructor <;> norm_num

theorem location_confidence_bounds {α : Type} [LinearOrderedField α] [FloorRing α]
    (location : String) :
    0 ≤ ConfidenceScorer._calculate_location_confidence (α := α) location ∧
      ConfidenceScorer._calculate_location_confidence (α := α) location ≤ 1 := by
  refine lookup_getD_pred (fun x => 0 ≤ x ∧ x ≤ 1) 0.8 location
    (ConfidenceScorer.location_confidence_table (α := α)) (by norm_num) ?_
  intro p hp
  fin_cases hp <;> constructor <;> norm_num

theorem task_confidence_bounds {α : Type} [LinearOrderedField α] [FloorRing α]
    (tasks : List String) :
    0 ≤ (ConfidenceScorer._calculate_task_confidence (α := α) tasks).1 ∧
      (ConfidenceScorer._calculate_task_confidence (α := α) tasks).1 ≤ 1 := by
  simp only [ConfidenceScorer._calculate_task_confidence]
  split_ifs <;> constructor <;> norm_num

theorem scan_price_bounds {α : Type} [LinearOrderedField α] [FloorRing α]
    (r : α) : ∀ l : List (ConfidenceScorer.PriceThreshold α),
      (∀ t ∈ l, 0 ≤ t.score ∧ t.score ≤ 1) →
      0 ≤ (ConfidenceScorer.scan_price_thresholds r l).1 ∧
        (ConfidenceScorer.scan_price_thresholds r l).1 ≤ 1
  | [], _ => by
    simp only [ConfidenceScorer.scan_price_thresholds]
    norm_num
  | t :: rest, hl => by
    simp only [ConfidenceScorer.scan_price_thresholds]
    split_ifs
    · exact hl t (List.mem_cons_self _ _)
    · exact scan_price_bounds r rest (fun x hx => hl x (List.mem_cons_of_mem _ hx))

theorem price_confidence_bounds {α : Type} [LinearOrderedField α] [FloorRing α]
    (task_prices : List (PyDict α)) (final_price : α) :
    0 ≤ (ConfidenceScorer._calculate_price_confidence task_prices final_price).1 ∧
      (ConfidenceScorer._calculate_price_confidence task_prices final_price).1 ≤ 1 := by
  rw [ConfidenceScorer._calculate_price_confidence]
  split_ifs
  · norm_num
  · refine scan_price_bounds _ _ ?_
    intro t ht
    fin_cases ht <;> constructor <;> norm_num

theorem complexity_confidence_bounds {α : Type} [LinearOrderedField α] [FloorRing α]
    (tasks : List String) :
    0 ≤ ConfidenceScorer._calculate_complexity_confidence (α := α) tasks ∧
      ConfidenceScorer._calculate_complexity_confidence (α := α) tasks ≤ 1 := by
  rw [ConfidenceScorer._calculate_complexity_confidence]
  split_ifs with he
  · norm_num
  · have hlen : 0 < (tasks.length : α) := by
      have : tasks.length ≠ 0 := by
        simpa [List.length_eq_zero] using he
      have : 0 < tasks.length := Nat.pos_of_ne_zero this
      exact_mod_cast this
    have hnn : ∀ x ∈ tasks.map (fun task =>
        if ["painting", "vanity"].contains task then (0.9 : α)
        else if ["flooring", "electrical"].contains task then 0.95
        else if ["tiles", "plumbing"].contains task then 0.85
        else 0.8), 0 ≤ x := by
      intro x hx
      obtain ⟨t, _, rfl⟩ := List.mem_map.1 hx
      split_ifs <;> norm_num
    have hub : ∀ x ∈ tasks.map (fun task =>
        if ["painting", "vanity"].contains task then (0.9 : α)
        else if ["flooring", "electrical"].contains task then 0.95
        else if ["tiles", "plumbing"].contains task then 0.85
        else 0.8), x ≤ 1 := by
      intro x hx
      obtain ⟨t, _, rfl⟩ := List.mem_map.1 hx
      split_ifs <;> norm_num
    constructor
    · exact div_nonneg (List.sum_nonneg hnn) (by simp only [List.length_map]; exact hlen.le)
    · rw [div_le_one (by simp only [List.length_map]; exact hlen)]
      calc (tasks.map _).sum ≤ (tasks.map (fun task =>
            if ["painting", "vanity"].contains task then (0.9 : α)
            else if ["flooring", "electrical"].contains task then 0.95
            else if ["tiles", "plumbing"].contains task then 0.85
            else 0.8)).length • (1 : α) := List.sum_le_card_nsmul _ 1 hub
        _ = (tasks.length : α) := by simp
        _ = _ := by simp

/-- C8: for every size, location, task list, task-price list and final
price, the confidence score lies in the closed interval [0, 100]. It is,
by definition, the weighted sum of the five sub-scores with weights
0.15, 0.10, 0.20, 0.35, 0.20, times 100, reduced by the factor
1 - min(flagCount × 0.05, 0.20), floored at 0 and rounded to 1 decimal. -/
theorem c8_confidence_score_bounds {α : Type} [LinearOrderedField α] [FloorRing α]
    (bathroom_size : α) (location : String) (tasks : List String)
    (task_prices : List (PyDict α)) (final_price : α) :
    0 ≤ ConfidenceScorer.calculate_confidence bathroom_size location tasks
        task_prices final_price ∧
      ConfidenceScorer.calculate_confidence bathroom_size location tasks
        task_prices final_price ≤ 100 := by
  obtain ⟨ha0, ha1⟩ := size_confidence_bounds (α := α) bathroom_size
  obtain ⟨hb0, hb1⟩ := location_confidence_bounds (α := α) location
  obtain ⟨hc0, hc1⟩ := task_confidence_bounds (α := α) tasks
  obtain ⟨hd0, hd1⟩ := price_confidence_bounds task_prices final_price
  obtain ⟨he0, he1⟩ := complexity_confidence_bounds (α := α) tasks
  rw [ConfidenceScorer.calculate_confidence]
  set a := (ConfidenceScorer._calculate_size_confidence bathroom_size).1
  set b := ConfidenceScorer._calculate_location_confidence (α := α) location
  set c := (ConfidenceScorer._calculate_task_confidence (α := α) tasks).1
  set d := (ConfidenceScorer._calculate_price_confidence task_prices final_price).1
  set e := ConfidenceScorer._calculate_complexity_confidence (α := α) tasks
  set n := (ConfidenceScorer.confidence_flags bathroom_size tasks task_prices
    final_price).length
  have hw0 : 0 ≤ a * 0.15 + b * 0.10 + c * 0.20 + d * 0.35 + e * 0.20 := by
    nlinarith
  have hw1 : a * 0.15 + b * 0.10 + c * 0.20 + d * 0.35 + e * 0.20 ≤ 1 := by
    nlinarith
  have hp0 : (0 : α) ≤ min ((n : α) * 0.05) 0.20 :=
    le_min (by positivity) (by norm_num)
  have hp1 : min ((n : α) * 0.05) 0.20 ≤ 0.20 := min_le_right _ _
  set w := a * 0.15 + b * 0.10 + c * 0.20 + d * 0.35 + e * 0.20
  set p := min ((n : α) * 0.05) 0.20
  have hx0 : 0 ≤ w * 100 * (1 - p) := by nlinarith
  have hx1 : w * 100 * (1 - p) ≤ 100 := by nlinarith
  have hm0 : (0 : α) ≤ max (w * 100 * (1 - p)) 0 := le_max_right _ _
  have hm1 : max (w * 100 * (1 - p)) 0 ≤ 100 := max_le hx1 (by norm_num)
  constructor
  · have := round1_mono hm0
    rwa [round1_zero] at this
  · have := round1_mono hm1
    rwa [round1_hundred] at this

/-! ## Claim C9 -/

/-- Counterexample to C9 as stated: a scoring call on a medium bathroom
(size 5), tasks painting, vanity and flooring, a one-line price list and
final price 2000 fires exactly one flag, the missing-essential-tasks flag
(recorded with its task-list suffix), yet suggest_improvements returns no
suggestion for it, because the suggestion branch compares the flag for
exact equality with the bare name missing_essential_tasks. -/
theorem c9_counterexample :
    ConfidenceScorer.confidence_flags (5 : ℚ) ["painting", "vanity", "flooring"]
        [[("materials", DictVal.num (100 : ℚ))]] 2000 =
      ["missing_essential_tasks: plumbing, tiles"] ∧
    ConfidenceScorer.suggest_improvements
        ["missing_essential_tasks: plumbing, tiles"] = [] := by
  constructor
  · have hsize : (ConfidenceScorer._calculate_size_confidence (5 : ℚ)).2 = [] := by
      decide
    have htask : (ConfidenceScorer._calculate_task_confidence (α := ℚ)
        ["painting", "vanity", "flooring"]).2 =
        ["missing_essential_tasks: plumbing, tiles"] := by
      decide
    have hprice : (ConfidenceScorer._calculate_price_confidence
        [[("materials", DictVal.num (100 : ℚ))]] (2000 : ℚ)).2 = [] := by
      rw [ConfidenceScorer._calculate_price_confidence, if_neg (by simp)]
      norm_num [ConfidenceScorer.historical_pricing,
        ConfidenceScorer.price_thresholds, ConfidenceScorer.scan_price_thresholds]
    rw [ConfidenceScorer.confidence_flags, hsize, htask, hprice]
    simp
  · decide

/-- C9 amended: the suggestion list is derived from the fired flags by a
per-flag partial mapping: each flag equal to one of the seven literal names
contributes exactly its suggestion, and every other flag, in particular the
missing-essential-tasks flag as actually recorded (with its task-list
suffix), contributes nothing. -/
theorem c9_suggestions_amended (flags : List String) :
    ConfidenceScorer.suggest_improvements flags =
      flags.filterMap suggestion_for_flag_spec ∧
    suggestion_for_flag_spec "missing_essential_tasks: plumbing, tiles" = none ∧
    suggestion_for_flag_spec "missing_essential_tasks: plumbing" = none ∧
    suggestion_for_flag_spec "missing_essential_tasks: tiles" = none := by
  refine ⟨?_, by decide, by decide, by decide⟩
  induction flags with
  | nil => rfl
  | cons f fs ih =>
    simp only [ConfidenceScorer.suggest_improvements, List.foldr_cons] at ih ⊢
    rw [List.filterMap_cons]
    simp only [suggestion_for_flag_spec]
    split_ifs <;> simp [ih]

/-! ## Claim C1 -/

/-- C1: for every transcript, whenever a quote is generated its final price
equals (subtotal + vatAmount) × (1 + margin) with margin 0.15 when the
requirement is budget-conscious and 0.25 otherwise; on invalid transcripts
both sides of the mapped equation are the same error. -/
theorem c1_margin_invariant (t : List Char) :
    (SmartPricingEngine.generate_quote t).map (fun q => q.final_price) =
      (SmartPricingEngine.generate_quote t).map (fun q =>
        (q.subtotal + q.vat_amount) *
          (1 + if q.client_requirements.budget_conscious then (0.15 : ℝ) else 0.25)) := by
  cases hp : SmartPricingEngine.parse_transcript t with
  | error e =>
    simp only [SmartPricingEngine.generate_quote, hp]
    rfl
  | ok req =>
    cases hb : SmartPricingEngine.build_quote req with
    | error e =>
      simp only [SmartPricingEngine.generate_quote, hp, hb]
      rfl
    | ok q =>
      simp only [SmartPricingEngine.generate_quote, hp, hb, Except.map]
      congr 1
      cases hl : SmartPricingEngine.city_multipliers.lookup req.location with
      | none =>
        rw [SmartPricingEngine.build_quote, hl] at hb
        exact absurd hb (by simp)
      | some cm =>
        simp only [SmartPricingEngine.build_quote, hl, Except.ok.injEq] at hb
        subst hb
        rfl

/-! ## Claim C2 -/

theorem task_price_no_task_type (task : String)
    (req : SmartPricingEngine.Requirements) :
    (SmartPricingEngine._calculate_task_price task req).lookup "task_type" = none := by
  cases hl : SmartPricingEngine.city_multipliers.lookup req.location <;>
    simp only [SmartPricingEngine._calculate_task_price, hl] <;> rfl

theorem get_vat_rate_empty_task {α : Type} [LinearOrderedField α] [FloorRing α] :
    VATRules.get_vat_rate (α := α) "" 0.0 10 = 0.20 := rfl

theorem round2_add_int_div {α : Type} [LinearOrderedField α] [FloorRing α]
    (x y : α) : ∃ k : ℤ, round2 x + round2 y = (k : α) / 100 :=
  ⟨round (x * 100) + round (y * 100), by rw [round2, round2]; push_cast; ring⟩

theorem calculate_total_vat_engine_lines (tps : List (PyDict ℝ))
    (h : ∀ tp ∈ tps, tp.lookup "task_type" = none) :
    VATRules.calculate_total_vat tps =
      (tps.map (fun tp =>
        round2 (0.20 * getNum tp "materials" 0) +
          round2 (0.20 * getNum tp "labor" 0))).sum := by
  simp only [VATRules.calculate_total_vat]
  rw [foldl_add_eq_sum (fun tp : PyDict ℝ =>
    (VATRules.calculate_task_vat (getStr tp "task_type" "")
      (getNum tp "materials" 0.0) 0.0 10).vat_amount +
    (VATRules.calculate_task_vat (getStr tp "task_type" "")
      (getNum tp "labor" 0.0) 0.0 10).vat_amount) tps 0.0]
  have hmap : tps.map (fun tp : PyDict ℝ =>
      (VATRules.calculate_task_vat (getStr tp "task_type" "")
        (getNum tp "materials" 0.0) 0.0 10).vat_amount +
      (VATRules.calculate_task_vat (getStr tp "task_type" "")
        (getNum tp "labor" 0.0) 0.0 10).vat_amount) =
      tps.map (fun tp =>
        round2 (0.20 * getNum tp "materials" 0) +
          round2 (0.20 * getNum tp "labor" 0)) := by
    refine List.map_congr_left ?_
    intro tp htp
    have hts : getStr tp "task_type" "" = "" := by
      rw [getStr, h tp htp]
    rw [hts]
    simp only [VATRules.calculate_task_vat, get_vat_rate_empty_task]
    rw [mul_comm (getNum tp "materials" 0.0) 0.20,
      mul_comm (getNum tp "labor" 0.0) 0.20]
    norm_num
  rw [hmap, show (0.0 : ℝ) = 0 by norm_num, zero_add]
  refine round2_sum_collapse _ ?_
  intro x hx
  obtain ⟨tp, _, rfl⟩ := List.mem_map.1 hx
  exact round2_add_int_div _ _

/-- C2: for every transcript, whenever a quote is generated its vat_amount
equals the sum over its task price lines of round(0.20 × materials, 2) +
round(0.20 × labor, 2): the standard 20 percent rate is applied to every
line because calculate_total_vat reads the key task_type while the engine
lines carry the key task, so every rate lookup falls back to the standard
rate (and the work-value argument defaults to 0, below the reduced-rate
minimum). -/
theorem c2_vat_standard_everywhere (t : List Char) :
    (SmartPricingEngine.generate_quote t).map (fun q => q.vat_amount) =
      (SmartPricingEngine.generate_quote t).map (fun q =>
        (q.tasks.map (fun tp =>
          round2 (0.20 * getNum tp "materials" 0) +
            round2 (0.20 * getNum tp "labor" 0))).sum) := by
  cases hp : SmartPricingEngine.parse_transcript t with
  | error e =>
    simp only [SmartPricingEngine.generate_quote, hp]
    rfl
  | ok req =>
    cases hb : SmartPricingEngine.build_quote req with
    | error e =>
      simp only [SmartPricingEngine.generate_quote, hp, hb]
      rfl
    | ok q =>
      simp only [SmartPricingEngine.generate_quote, hp, hb, Except.map]
      congr 1
      cases hl : SmartPricingEngine.city_multipliers.lookup req.location with
      | none =>
        rw [SmartPricingEngine.build_quote, hl] at hb
        exact absurd hb (by simp)
      | some cm =>
        simp only [SmartPricingEngine.build_quote, hl, Except.ok.injEq] at hb
        subst hb
        refine calculate_total_vat_engine_lines _ ?_
        intro tp htp
        obtain ⟨task, _, rfl⟩ := List.mem_map.1 htp
        exact task_price_no_task_type task req

/-! ## Claim C6 -/

theorem pyStrip_length_le (t : List Char) :
    (SmartPricingEngine.pyStrip t).length ≤ t.length := by
  rw [SmartPricingEngine.pyStrip]
  calc ((t.dropWhile SmartPricingEngine.isPySpace).reverse.dropWhile
          SmartPricingEngine.isPySpace).reverse.length
      = ((t.dropWhile SmartPricingEngine.isPySpace).reverse.dropWhile
          SmartPricingEngine.isPySpace).length := List.length_reverse _
    _ ≤ (t.dropWhile SmartPricingEngine.isPySpace).reverse.length :=
        (List.dropWhile_sublist _).length_le
    _ = (t.dropWhile SmartPricingEngine.isPySpace).length := List.length_reverse _
    _ ≤ t.length := (List.dropWhile_sublist _).length_le

/-- C6: for every transcript that is empty or shorter than 10 characters,
parse_transcript rejects it with the corresponding validation error, and
generate_quote returns only the wrapped error: no quote, not even a
partial one, is produced before any pricing work. -/
theorem c6_short_transcript_rejected (t : List Char) (h : t.length < 10) :
    SmartPricingEngine.parse_transcript t =
      Except.error (if t = [] then "Transcript must be a non-empty string"
        else "Transcript too short - please provide more details") ∧
    SmartPricingEngine.generate_quote t =
      Except.error ("Failed to generate quote: " ++
        (if t = [] then "Transcript must be a non-empty string"
         else "Transcript too short - please provide more details")) := by
  have hp : SmartPricingEngine.parse_transcript t =
      Except.error (if t = [] then "Transcript must be a non-empty string"
        else "Transcript too short - please provide more details") := by
    rw [SmartPricingEngine.parse_transcript]
    by_cases ht : t = []
    · rw [if_pos ht, if_pos ht]
    · rw [if_neg ht, if_neg ht,
        if_pos (lt_of_le_of_lt (pyStrip_length_le t) h)]
  refine ⟨hp, ?_⟩
  rw [SmartPricingEngine.generate_quote, hp]

/-- Witness for C6 at the two-character transcript hi. -/
theorem c6_short_transcript_rejected_witness :
    ("hi".toList.length < 10) ∧
    (SmartPricingEngine.parse_transcript "hi".toList =
      Except.error (if "hi".toList = [] then "Transcript must be a non-empty string"
        else "Transcript too short - please provide more details") ∧
    SmartPricingEngine.generate_quote "hi".toList =
      Except.error ("Failed to generate quote: " ++
        (if "hi".toList = [] then "Transcript must be a non-empty string"
         else "Transcript too short - please provide more details"))) :=
  ⟨by decide, c6_short_transcript_rejected "hi".toList (by decide)⟩

/-! ## Claim C10 -/

/-- C10: every requirements record produced by parse_transcript has a
non-empty task list that is a sublist of the canonical enumeration order
tiles, plumbing, painting, flooring, vanity, electrical (so detected tasks
appear in canonical order, never input order), and when no task keyword
occurs in the lowercased stripped transcript the list is exactly the
single default task painting. -/
theorem c10_tasks_canonical_order (t : List Char)
    (req : SmartPricingEngine.Requirements)
    (h : SmartPricingEngine.parse_transcript t = Except.ok req) :
    req.tasks ≠ [] ∧
    req.tasks.Sublist
      ["tiles", "plumbing", "painting", "flooring", "vanity", "electrical"] ∧
    ((∀ p ∈ SmartPricingEngine.task_keywords, ∀ kw ∈ p.2,
        SmartPricingEngine.containsSub kw.toList
          (SmartPricingEngine.pyStrip (t.map Char.toLower)) = false) →
      req.tasks = ["painting"]) := by
  rw [SmartPricingEngine.parse_transcript] at h
  by_cases h1 : t = []
  · rw [if_pos h1] at h
    exact absurd h (by simp)
  rw [if_neg h1] at h
  by_cases h2 : (SmartPricingEngine.pyStrip t).length < 10
  · rw [if_pos h2] at h
    exact absurd h (by simp)
  rw [if_neg h2] at h
  simp only [Except.ok.injEq] at h
  subst h
  set tl := SmartPricingEngine.pyStrip (t.map Char.toLower) with htl
  have hsub : (SmartPricingEngine._extract_tasks tl).Sublist
      ["tiles", "plumbing", "painting", "flooring", "vanity", "electrical"] := by
    rw [SmartPricingEngine._extract_tasks]
    have hmap : SmartPricingEngine.task_keywords.map Prod.fst =
        ["tiles", "plumbing", "painting", "flooring", "vanity", "electrical"] := rfl
    rw [← hmap]
    exact (List.filter_sublist _).map Prod.fst
  by_cases he : SmartPricingEngine._extract_tasks tl = []
  · refine ⟨by simp [he], ?_, fun _ => by simp [he]⟩
    simp only [he, if_pos]
    exact List.singleton_sublist.2 (by simp)
  · refine ⟨by simp [he], ?_, ?_⟩
    · simpa only [if_neg he] using hsub
    · intro hk
      exfalso
      apply he
      rw [SmartPricingEngine._extract_tasks]
      have : SmartPricingEngine.task_keywords.filter
          (fun p => p.2.any (fun keyword =>
            SmartPricingEngine.containsSub keyword.toList tl)) = [] := by
        rw [List.filter_eq_nil_iff]
        intro p hp
        simp only [Bool.not_eq_true, List.any_eq_false]
        intro kw hkw
        exact hk p hp kw hkw
      rw [this, List.map_nil]

/-- Witness for C10 at a transcript mentioning shower before tiles; the
extracted list still puts tiles before plumbing, in canonical order. -/
theorem c10_tasks_canonical_order_witness :
    SmartPricingEngine.parse_transcript
        "install a shower and new tiles please".toList =
      Except.ok { bathroom_size := 4.0, location := "marseille",
                  tasks := ["tiles", "plumbing"], budget_conscious := false,
                  original_transcript :=
                    "install a shower and new tiles please".toList } ∧
    (({ bathroom_size := 4.0, location := "marseille",
        tasks := ["tiles", "plumbing"], budget_conscious := false,
        original_transcript :=
          "install a shower and new tiles please".toList } :
          SmartPricingEngine.Requirements).tasks ≠ [] ∧
    (({ bathroom_size := 4.0, location := "marseille",
        tasks := ["tiles", "plumbing"], budget_conscious := false,
        original_transcript :=
          "install a shower and new tiles please".toList } :
          SmartPricingEngine.Requirements).tasks).Sublist
      ["tiles", "plumbing", "painting", "flooring", "vanity", "electrical"] ∧
    ((∀ p ∈ SmartPricingEngine.task_keywords, ∀ kw ∈ p.2,
        SmartPricingEngine.containsSub kw.toList
          (SmartPricingEngine.pyStrip
            ("install a shower and new tiles please".toList.map Char.toLower)) =
          false) →
      ({ bathroom_size := 4.0, location := "marseille",
         tasks := ["tiles", "plumbing"], budget_conscious := false,
         original_transcript :=
           "install a shower and new tiles please".toList } :
           SmartPricingEngine.Requirements).tasks = ["painting"])) :=
  ⟨rfl, c10_tasks_canonical_order "install a shower and new tiles please".toList _ rfl⟩
